import Mathlib

/-!
Verification of the gradient-descent core of `GradientShow.py`.

The core function `gradient_descent_pytorch(func, start_point, learning_rate,
max_iters, tolerance)` runs fixed-step gradient descent:

* it records the initial sample `[x1, x2, f(x1,x2)]`;
* for `i = 1 .. max_iters` it computes the gradient of `func` at the current
  point by reverse-mode automatic differentiation (`y.backward()`), updates
  `x -= learning_rate * grad`, appends the new sample `[x1, x2, f(x1,x2)]`,
  and then breaks out of the loop if `torch.norm(grad) < tolerance`;
* it returns the list of samples.

The embedding works over exact rational arithmetic (`ℚ`) in place of the
source's float32 tensors, so every definition is executable.  The PyTorch
automatic-differentiation engine is external to the repository; it is
modelled as an oracle: an objective carries both its value function and the
gradient function that `y.backward()` would produce for it.  The Euclidean
norm `torch.norm(grad)` is a real number; the loop only compares it against
the tolerance, and that comparison is embedded as the executable test
`gradSmall` together with the lemma `gradSmall_iff_norm_lt` proving it
equivalent to `Real.sqrt (g₁² + g₂²) < tolerance`.
-/

/-- An objective of two variables together with the gradient that the
external automatic-differentiation engine (`y.backward()` in the source)
produces for it.  Mirrors the `func` argument of
`gradient_descent_pytorch` in `GradientShow.py`. -/
structure Objective where
  f : ℚ × ℚ → ℚ
  grad : ℚ × ℚ → ℚ × ℚ

/-- One trajectory sample `[x1, x2, f(x1, x2)]` as appended to `path` in the
source. -/
abbrev Sample := ℚ × ℚ × ℚ

/-- The point `(x1, x2)` recorded in a sample. -/
def Sample.pt (s : Sample) : ℚ × ℚ := (s.1, s.2.1)

/-- The objective value recorded in a sample. -/
def Sample.val (s : Sample) : ℚ := s.2.2

/-- The parameter update `x -= learning_rate * grad` of the source,
component-wise on the two coordinates. -/
def stepPoint (learning_rate : ℚ) (x g : ℚ × ℚ) : ℚ × ℚ :=
  (x.1 - learning_rate * g.1, x.2 - learning_rate * g.2)

/-- Square of the Euclidean norm of a gradient vector. -/
def normSq (g : ℚ × ℚ) : ℚ := g.1 * g.1 + g.2 * g.2

/-- Executable form of the source's stopping test
`torch.norm(grad).item() < tolerance`.  Equivalent to
`Real.sqrt (normSq g) < tolerance` by `gradSmall_iff_norm_lt`. -/
def gradSmall (g : ℚ × ℚ) (tolerance : ℚ) : Bool :=
  decide (0 < tolerance) && decide (normSq g < tolerance * tolerance)

/-- The sample `[x1, x2, f(x1,x2)]` recorded for the point `x`. -/
def mkSample (func : Objective) (x : ℚ × ℚ) : Sample :=
  (x.1, x.2, func.f x)

/-- The loop `for i in range(1, max_iters + 1)` of
`gradient_descent_pytorch`, with the remaining iteration budget as fuel:
each pass computes the gradient at the current point, updates the point,
appends the new sample, and breaks if the gradient norm is below the
tolerance.  Returns the list of samples appended by the loop (everything
after the initial sample). -/
def gdIter (func : Objective) (learning_rate tolerance : ℚ) :
    ℕ → ℚ × ℚ → List Sample
  | 0, _ => []
  | fuel + 1, x =>
    if gradSmall (func.grad x) tolerance then
      [mkSample func (stepPoint learning_rate x (func.grad x))]
    else
      mkSample func (stepPoint learning_rate x (func.grad x)) ::
        gdIter func learning_rate tolerance fuel
          (stepPoint learning_rate x (func.grad x))

/-- `gradient_descent_pytorch` of `GradientShow.py`: the initial sample
followed by the samples appended by the iteration loop. -/
def gradient_descent_pytorch (func : Objective) (start_point : ℚ × ℚ)
    (learning_rate : ℚ) (max_iters : ℕ) (tolerance : ℚ) : List Sample :=
  mkSample func start_point
    :: gdIter func learning_rate tolerance max_iters start_point

/-- The number of parameter updates (`x -= learning_rate * grad`) the loop
actually executes, counted directly from the loop structure. -/
def countUpdates (func : Objective) (learning_rate tolerance : ℚ) :
    ℕ → ℚ × ℚ → ℕ
  | 0, _ => 0
  | fuel + 1, x =>
    if gradSmall (func.grad x) tolerance then 1
    else
      1 + countUpdates func learning_rate tolerance fuel
            (stepPoint learning_rate x (func.grad x))

/-- The number of loop iterations a run performs (its stopping iteration):
one sample is appended per iteration, so this is the length of the list the
loop produces. -/
def stepsPerformed (func : Objective) (start_point : ℚ × ℚ)
    (learning_rate : ℚ) (max_iters : ℕ) (tolerance : ℚ) : ℕ :=
  (gdIter func learning_rate tolerance max_iters start_point).length

/-- The point reached after `n` gradient-descent updates from `x`, ignoring
the stopping rule. -/
def iterPt (func : Objective) (learning_rate : ℚ) : ℕ → ℚ × ℚ → ℚ × ℚ
  | 0, x => x
  | n + 1, x =>
    iterPt func learning_rate n (stepPoint learning_rate x (func.grad x))

/-- The convex bowl objective `f(x1,x2) = x1² + x2²` of the spec's
monotonic-shrinkage test, with the gradient `(2·x1, 2·x2)` that automatic
differentiation produces for it. -/
def bowl : Objective :=
  ⟨fun x => x.1 * x.1 + x.2 * x.2, fun x => (2 * x.1, 2 * x.2)⟩

/-- The flat objective `f(x1,x2) = 0` of the spec's boundary test; its
gradient is identically zero. -/
def flatObj : Objective :=
  ⟨fun _ => 0, fun _ => (0, 0)⟩

/-- A sample records exactly the point it was built from. -/
theorem pt_mkSample (func : Objective) (x : ℚ × ℚ) :
    (mkSample func x).pt = x := rfl

/-- A sample records exactly the objective value at its point. -/
theorem val_mkSample (func : Objective) (x : ℚ × ℚ) :
    (mkSample func x).val = func.f x := rfl

/-- Unfolding `iterPt` at the back: the point after `n + 1` updates is one
update step applied to the point after `n` updates. -/
theorem iterPt_succ_back (func : Objective) (learning_rate : ℚ) (n : ℕ)
    (x : ℚ × ℚ) :
    iterPt func learning_rate (n + 1) x
      = stepPoint learning_rate (iterPt func learning_rate n x)
          (func.grad (iterPt func learning_rate n x)) := by
  induction n generalizing x with
  | zero => rfl
  | succ n ih =>
    have h1 : iterPt func learning_rate (n + 1 + 1) x
        = iterPt func learning_rate (n + 1)
            (stepPoint learning_rate x (func.grad x)) := rfl
    rw [h1, ih]
    rfl

/-- The loop appends at most one sample per remaining iteration. -/
theorem gdIter_length_le (func : Objective) (learning_rate tolerance : ℚ) :
    ∀ (fuel : ℕ) (x : ℚ × ℚ),
      (gdIter func learning_rate tolerance fuel x).length ≤ fuel := by
  intro fuel
  induction fuel with
  | zero => intro x; simp [gdIter]
  | succ fuel ih =>
    intro x
    by_cases hb : gradSmall (func.grad x) tolerance = true
    · simp [gdIter, hb]
    · rw [Bool.not_eq_true] at hb
      simp only [gdIter, hb, Bool.false_eq_true, if_false, List.length_cons]
      exact Nat.succ_le_succ (ih _)

/-- With at least one remaining iteration the loop appends at least one
sample. -/
theorem gdIter_length_pos (func : Objective) (learning_rate tolerance : ℚ)
    (fuel : ℕ) (x : ℚ × ℚ) (h : 0 < fuel) :
    0 < (gdIter func learning_rate tolerance fuel x).length := by
  cases fuel with
  | zero => exact absurd h (lt_irrefl 0)
  | succ fuel =>
    by_cases hb : gradSmall (func.grad x) tolerance = true
    · simp [gdIter, hb]
    · rw [Bool.not_eq_true] at hb
      simp [gdIter, hb]

/-- The `j`-th sample the loop appends (0-based) is the sample of the point
reached after `j + 1` update steps. -/
theorem gdIter_get? (func : Objective) (learning_rate tolerance : ℚ) :
    ∀ (fuel : ℕ) (x : ℚ × ℚ) (j : ℕ),
      j < (gdIter func learning_rate tolerance fuel x).length →
      (gdIter func learning_rate tolerance fuel x).get? j
        = some (mkSample func (iterPt func learning_rate (j + 1) x)) := by
  intro fuel
  induction fuel with
  | zero => intro x j h; simp [gdIter] at h
  | succ fuel ih =>
    intro x j h
    by_cases hb : gradSmall (func.grad x) tolerance = true
    · have hl : gdIter func learning_rate tolerance (fuel + 1) x
          = [mkSample func (stepPoint learning_rate x (func.grad x))] := by
        simp [gdIter, hb]
      rw [hl] at h ⊢
      simp only [List.length_singleton] at h
      have hj : j = 0 := by omega
      subst hj
      rfl
    · rw [Bool.not_eq_true] at hb
      have hl : gdIter func learning_rate tolerance (fuel + 1) x
          = mkSample func (stepPoint learning_rate x (func.grad x)) ::
              gdIter func learning_rate tolerance fuel
                (stepPoint learning_rate x (func.grad x)) := by
        simp [gdIter, hb]
      rw [hl] at h ⊢
      cases j with
      | zero => rfl
      | succ j =>
        simp only [List.get?_cons_succ]
        simp only [List.length_cons] at h
        rw [ih (stepPoint learning_rate x (func.grad x)) j (by omega)]
        rfl

/-- An iteration that is not the run's last one found a gradient that was
not below the tolerance. -/
theorem gdIter_not_small (func : Objective) (learning_rate tolerance : ℚ) :
    ∀ (fuel : ℕ) (x : ℚ × ℚ) (j : ℕ),
      j + 1 < (gdIter func learning_rate tolerance fuel x).length →
      gradSmall (func.grad (iterPt func learning_rate j x)) tolerance
        = false := by
  intro fuel
  induction fuel with
  | zero => intro x j h; simp [gdIter] at h
  | succ fuel ih =>
    intro x j h
    by_cases hb : gradSmall (func.grad x) tolerance = true
    · have hl : gdIter func learning_rate tolerance (fuel + 1) x
          = [mkSample func (stepPoint learning_rate x (func.grad x))] := by
        simp [gdIter, hb]
      rw [hl] at h
      simp at h
    · rw [Bool.not_eq_true] at hb
      have hl : gdIter func learning_rate tolerance (fuel + 1) x
          = mkSample func (stepPoint learning_rate x (func.grad x)) ::
              gdIter func learning_rate tolerance fuel
                (stepPoint learning_rate x (func.grad x)) := by
        simp [gdIter, hb]
      rw [hl] at h
      simp only [List.length_cons] at h
      cases j with
      | zero => exact hb
      | succ j =>
        exact ih (stepPoint learning_rate x (func.grad x)) j (by omega)

/-- If the loop stops before exhausting its budget, the gradient of its
last executed iteration was below the tolerance. -/
theorem gdIter_early_stop (func : Objective) (learning_rate tolerance : ℚ) :
    ∀ (fuel : ℕ) (x : ℚ × ℚ),
      (gdIter func learning_rate tolerance fuel x).length < fuel →
      gradSmall
        (func.grad (iterPt func learning_rate
          ((gdIter func learning_rate tolerance fuel x).length - 1) x))
        tolerance = true := by
  intro fuel
  induction fuel with
  | zero => intro x h; exact absurd h (Nat.not_lt_zero _)
  | succ fuel ih =>
    intro x h
    by_cases hb : gradSmall (func.grad x) tolerance = true
    · have hl : gdIter func learning_rate tolerance (fuel + 1) x
          = [mkSample func (stepPoint learning_rate x (func.grad x))] := by
        simp [gdIter, hb]
      rw [hl]
      simpa using hb
    · rw [Bool.not_eq_true] at hb
      have hl : gdIter func learning_rate tolerance (fuel + 1) x
          = mkSample func (stepPoint learning_rate x (func.grad x)) ::
              gdIter func learning_rate tolerance fuel
                (stepPoint learning_rate x (func.grad x)) := by
        simp [gdIter, hb]
      rw [hl] at h ⊢
      simp only [List.length_cons] at h ⊢
      have hr : (gdIter func learning_rate tolerance fuel
          (stepPoint learning_rate x (func.grad x))).length < fuel := by
        omega
      have hpos : 0 < (gdIter func learning_rate tolerance fuel
          (stepPoint learning_rate x (func.grad x))).length :=
        gdIter_length_pos func learning_rate tolerance fuel _ (by omega)
      have hstop := ih (stepPoint learning_rate x (func.grad x)) hr
      obtain ⟨k, hk⟩ : ∃ k, (gdIter func learning_rate tolerance fuel
          (stepPoint learning_rate x (func.grad x))).length = k + 1 :=
        ⟨_, (Nat.succ_pred_eq_of_pos hpos).symm⟩
      rw [hk] at hstop ⊢
      simp only [Nat.add_sub_cancel] at hstop ⊢
      exact hstop

/-- Each executed loop iteration performs exactly one parameter update. -/
theorem gdIter_length_eq_countUpdates (func : Objective)
    (learning_rate tolerance : ℚ) :
    ∀ (fuel : ℕ) (x : ℚ × ℚ),
      (gdIter func learning_rate tolerance fuel x).length
        = countUpdates func learning_rate tolerance fuel x := by
  intro fuel
  induction fuel with
  | zero => intro x; simp [gdIter, countUpdates]
  | succ fuel ih =>
    intro x
    by_cases hb : gradSmall (func.grad x) tolerance = true
    · simp [gdIter, countUpdates, hb]
    · rw [Bool.not_eq_true] at hb
      simp only [gdIter, countUpdates, hb, Bool.false_eq_true, if_false,
        List.length_cons, ih]
      omega

/-- The executable stopping test agrees with the source's comparison of the
Euclidean gradient norm against the tolerance. -/
theorem gradSmall_iff_norm_lt (g : ℚ × ℚ) (tolerance : ℚ) :
    gradSmall g tolerance = true
      ↔ Real.sqrt ((normSq g : ℝ)) < (tolerance : ℝ) := by
  unfold gradSmall
  rw [Bool.and_eq_true, decide_eq_true_eq, decide_eq_true_eq]
  constructor
  · rintro ⟨h0, hlt⟩
    have h0' : (0 : ℝ) < (tolerance : ℝ) := by exact_mod_cast h0
    rw [Real.sqrt_lt' h0']
    have : (normSq g : ℝ) < (tolerance : ℝ) * (tolerance : ℝ) := by
      exact_mod_cast hlt
    nlinarith [this]
  · intro hlt
    have hnn : (0 : ℝ) ≤ Real.sqrt ((normSq g : ℝ)) := Real.sqrt_nonneg _
    have h0' : (0 : ℝ) < (tolerance : ℝ) := lt_of_le_of_lt hnn hlt
    have h0 : 0 < tolerance := by exact_mod_cast h0'
    refine ⟨h0, ?_⟩
    rw [Real.sqrt_lt' h0'] at hlt
    have : (normSq g : ℝ) < (tolerance : ℝ) * (tolerance : ℝ) := by
      nlinarith [hlt]
    exact_mod_cast this

/-- The trajectory contains the initial sample followed by one sample per
executed iteration. -/
theorem run_length (func : Objective) (start_point : ℚ × ℚ)
    (learning_rate : ℚ) (max_iters : ℕ) (tolerance : ℚ) :
    (gradient_descent_pytorch func start_point learning_rate max_iters
        tolerance).length
      = stepsPerformed func start_point learning_rate max_iters tolerance
          + 1 := rfl

/-- The `j`-th trajectory sample is the sample of the point reached after
`j` update steps. -/
theorem run_get? (func : Objective) (start_point : ℚ × ℚ)
    (learning_rate : ℚ) (max_iters : ℕ) (tolerance : ℚ) (j : ℕ)
    (h : j < (gradient_descent_pytorch func start_point learning_rate
        max_iters tolerance).length) :
    (gradient_descent_pytorch func start_point learning_rate max_iters
        tolerance).get? j
      = some (mkSample func (iterPt func learning_rate j start_point)) := by
  cases j with
  | zero => rfl
  | succ j =>
    simp only [gradient_descent_pytorch, List.length_cons] at h
    simp only [gradient_descent_pytorch, List.get?_cons_succ]
    exact gdIter_get? func learning_rate tolerance max_iters start_point j
      (by omega)

/-- C1: for every iteration `i` from 1 to the stopping iteration, the point
recorded in trajectory sample `i` equals the point of sample `i - 1` minus
`learning_rate` times the gradient of the objective at the point of sample
`i - 1`, component-wise in each of the two coordinates (`stepPoint` is the
component-wise update `x - learning_rate * grad`). -/
theorem c1_update_rule (func : Objective) (start_point : ℚ × ℚ)
    (learning_rate : ℚ) (max_iters : ℕ) (tolerance : ℚ) (i : ℕ)
    (s s' : Sample)
    (hs : (gradient_descent_pytorch func start_point learning_rate max_iters
        tolerance).get? i = some s)
    (hs' : (gradient_descent_pytorch func start_point learning_rate max_iters
        tolerance).get? (i + 1) = some s') :
    s'.pt = stepPoint learning_rate s.pt (func.grad s.pt) := by
  have hlen' : i + 1 < (gradient_descent_pytorch func start_point
      learning_rate max_iters tolerance).length := by
    rcases List.get?_eq_some.mp hs' with ⟨h, _⟩
    exact h
  have hlen : i < (gradient_descent_pytorch func start_point learning_rate
      max_iters tolerance).length := Nat.lt_of_succ_lt hlen'
  rw [run_get? func start_point learning_rate max_iters tolerance i hlen]
    at hs
  rw [run_get? func start_point learning_rate max_iters tolerance (i + 1)
    hlen'] at hs'
  injection hs with hs
  injection hs' with hs'
  subst hs hs'
  simp only [pt_mkSample]
  exact iterPt_succ_back func learning_rate i start_point

/-- Witness for C1 on the bowl objective from `(1, 0)` with learning rate
`1/4`: the second sample's point is one update step from the first. -/
theorem c1_update_rule_witness :
    (gradient_descent_pytorch bowl (1, 0) (1/4) 1 0).get? 0
        = some (1, 0, 1) ∧
    (gradient_descent_pytorch bowl (1, 0) (1/4) 1 0).get? 1
        = some (1/2, 0, 1/4) ∧
    Sample.pt (1/2, 0, 1/4)
        = stepPoint (1/4) (Sample.pt (1, 0, 1))
            (bowl.grad (Sample.pt (1, 0, 1))) :=
  ⟨by norm_num [gradient_descent_pytorch, gdIter, gradSmall, normSq,
      mkSample, stepPoint, bowl],
   by norm_num [gradient_descent_pytorch, gdIter, gradSmall, normSq,
      mkSample, stepPoint, bowl],
   c1_update_rule bowl (1, 0) (1/4) 1 0 0 (1, 0, 1) (1/2, 0, 1/4)
     (by norm_num [gradient_descent_pytorch, gdIter, gradSmall, normSq,
        mkSample, stepPoint, bowl])
     (by norm_num [gradient_descent_pytorch, gdIter, gradSmall, normSq,
        mkSample, stepPoint, bowl])⟩

/-- C2: an executed iteration `i` (so `1 ≤ i ≤ stepsPerformed`) is the last
one if and only if the Euclidean norm of the gradient computed at its
pre-update point is strictly below the tolerance or `i` equals `max_iters`;
in particular a norm exactly equal to the tolerance does not stop the
run. -/
theorem c2_stopping_rule (func : Objective) (start_point : ℚ × ℚ)
    (learning_rate : ℚ) (max_iters : ℕ) (tolerance : ℚ) (i : ℕ)
    (h1 : 1 ≤ i)
    (h2 : i ≤ stepsPerformed func start_point learning_rate max_iters
        tolerance) :
    stepsPerformed func start_point learning_rate max_iters tolerance = i
      ↔ (Real.sqrt ((normSq (func.grad (iterPt func learning_rate (i - 1)
            start_point)) : ℝ)) < (tolerance : ℝ)
          ∨ i = max_iters) := by
  unfold stepsPerformed at h2 ⊢
  constructor
  · intro hL
    by_cases hlt : (gdIter func learning_rate tolerance max_iters
        start_point).length < max_iters
    · left
      have hstop := gdIter_early_stop func learning_rate tolerance max_iters
        start_point hlt
      rw [hL] at hstop
      exact (gradSmall_iff_norm_lt _ _).mp hstop
    · right
      have hle := gdIter_length_le func learning_rate tolerance max_iters
        start_point
      omega
  · intro hor
    rcases hor with hnorm | hmax
    · by_contra hne
      have hi : i < (gdIter func learning_rate tolerance max_iters
          start_point).length := by omega
      have hfalse := gdIter_not_small func learning_rate tolerance max_iters
        start_point (i - 1) (by omega)
      have htrue := (gradSmall_iff_norm_lt _ _).mpr hnorm
      rw [htrue] at hfalse
      simp at hfalse
    · have hle := gdIter_length_le func learning_rate tolerance max_iters
        start_point
      omega

/-- Witness for C2 on the flat objective with tolerance `1`: the first
iteration is the last because its gradient norm is below the tolerance. -/
theorem c2_stopping_rule_witness :
    1 ≤ 1 ∧
    1 ≤ stepsPerformed flatObj (0, 0) (1/100) 3 1 ∧
    (stepsPerformed flatObj (0, 0) (1/100) 3 1 = 1
      ↔ (Real.sqrt ((normSq (flatObj.grad (iterPt flatObj (1/100) (1 - 1)
            (0, 0))) : ℝ)) < ((1 : ℚ) : ℝ)
          ∨ 1 = 3)) :=
  ⟨le_refl 1,
   by norm_num [stepsPerformed, gdIter, gradSmall, normSq, mkSample,
      stepPoint, flatObj],
   c2_stopping_rule flatObj (0, 0) (1/100) 3 1 1 (le_refl 1)
     (by norm_num [stepsPerformed, gdIter, gradSmall, normSq, mkSample,
        stepPoint, flatObj])⟩

/-- C3: with `max_iters ≥ 1` the trajectory length is between 1 and
`max_iters + 1` and equals 1 plus the number of update steps actually
performed. -/
theorem c3_trajectory_length (func : Objective) (start_point : ℚ × ℚ)
    (learning_rate : ℚ) (max_iters : ℕ) (tolerance : ℚ)
    (_h : 1 ≤ max_iters) :
    1 ≤ (gradient_descent_pytorch func start_point learning_rate max_iters
        tolerance).length ∧
    (gradient_descent_pytorch func start_point learning_rate max_iters
        tolerance).length ≤ max_iters + 1 ∧
    (gradient_descent_pytorch func start_point learning_rate max_iters
        tolerance).length
      = 1 + countUpdates func learning_rate tolerance max_iters
          start_point := by
  have hle := gdIter_length_le func learning_rate tolerance max_iters
    start_point
  have heq := gdIter_length_eq_countUpdates func learning_rate tolerance
    max_iters start_point
  simp only [gradient_descent_pytorch, List.length_cons]
  omega

/-- Witness for C3 on the bowl objective with `max_iters = 2`. -/
theorem c3_trajectory_length_witness :
    1 ≤ 2 ∧
    (1 ≤ (gradient_descent_pytorch bowl (1, 0) (1/4) 2 0).length ∧
     (gradient_descent_pytorch bowl (1, 0) (1/4) 2 0).length ≤ 2 + 1 ∧
     (gradient_descent_pytorch bowl (1, 0) (1/4) 2 0).length
       = 1 + countUpdates bowl (1/4) 0 2 (1, 0)) :=
  ⟨by norm_num,
   c3_trajectory_length bowl (1, 0) (1/4) 2 0 (by norm_num)⟩

/-- C4: the first trajectory sample records exactly the configured initial
point and the objective value at that point. -/
theorem c4_initial_sample (func : Objective) (start_point : ℚ × ℚ)
    (learning_rate : ℚ) (max_iters : ℕ) (tolerance : ℚ) :
    (gradient_descent_pytorch func start_point learning_rate max_iters
        tolerance).get? 0 = some (mkSample func start_point) ∧
    (mkSample func start_point).pt = start_point ∧
    (mkSample func start_point).val = func.f start_point :=
  ⟨rfl, rfl, rfl⟩

/-- C5 counterexample: with `max_iters = 1`, the flat objective and a
positive tolerance the computed gradient norm (zero) is already below the
tolerance, yet the trajectory has length 2, not 1: the updated sample is
appended before the tolerance check runs. -/
theorem c5_counterexample :
    (gradient_descent_pytorch flatObj (0, 0) (1/100) 1 1).length = 2 ∧
    ¬ (gradient_descent_pytorch flatObj (0, 0) (1/100) 1 1).length = 1 := by
  norm_num [gradient_descent_pytorch, gdIter, gradSmall, normSq, mkSample,
    stepPoint, flatObj]

/-- C5 amended: running with `max_iters = 1` produces a trajectory of
length exactly 2 for every objective and tolerance — also when the single
computed gradient norm is already below the tolerance, because the updated
sample is appended before the tolerance check. -/
theorem c5_amended_max_iters_one (func : Objective) (start_point : ℚ × ℚ)
    (learning_rate tolerance : ℚ) :
    (gradient_descent_pytorch func start_point learning_rate 1
        tolerance).length = 2 := by
  by_cases hb : gradSmall (func.grad start_point) tolerance = true
  · simp [gradient_descent_pytorch, gdIter, hb]
  · rw [Bool.not_eq_true] at hb
    simp [gradient_descent_pytorch, gdIter, hb]

/-- C6 counterexample: a run with the invalid learning rate `-1` (and
tolerance handling aside, `learning_rate ≤ 0`) is not rejected: the loop
executes, performs one update step, and records the ascent step
`(3, 0, 9)` from `(1, 0)`. -/
theorem c6_counterexample :
    (gradient_descent_pytorch bowl (1, 0) (-1) 1 0).length = 2 ∧
    countUpdates bowl (-1) 0 1 (1, 0) = 1 ∧
    (gradient_descent_pytorch bowl (1, 0) (-1) 1 0).get? 1
      = some (3, 0, 9) := by
  norm_num [gradient_descent_pytorch, gdIter, countUpdates, gradSmall,
    normSq, mkSample, stepPoint, bowl]

/-- C6 amended: the source performs no configuration validation: a run
invoked with `learning_rate ≤ 0`, `max_iters < 1` or `tolerance < 0` is not
rejected; it executes the ordinary loop, producing the initial sample
followed by the loop's samples, one per performed update step. -/
theorem c6_no_validation (func : Objective) (start_point : ℚ × ℚ)
    (learning_rate : ℚ) (max_iters : ℕ) (tolerance : ℚ)
    (_h : learning_rate ≤ 0 ∨ max_iters = 0 ∨ tolerance < 0) :
    gradient_descent_pytorch func start_point learning_rate max_iters
        tolerance
      = mkSample func start_point
          :: gdIter func learning_rate tolerance max_iters start_point ∧
    (gradient_descent_pytorch func start_point learning_rate max_iters
        tolerance).length
      = 1 + countUpdates func learning_rate tolerance max_iters
          start_point := by
  refine ⟨rfl, ?_⟩
  have heq := gdIter_length_eq_countUpdates func learning_rate tolerance
    max_iters start_point
  simp only [gradient_descent_pytorch, List.length_cons]
  omega

/-- Witness for the amended C6: with the invalid learning rate `-1` the run
still executes and returns the unvalidated loop's trajectory. -/
theorem c6_no_validation_witness :
    ((-1 : ℚ) ≤ 0 ∨ (1 : ℕ) = 0 ∨ (0 : ℚ) < 0) ∧
    (gradient_descent_pytorch bowl (1, 0) (-1) 1 0
        = mkSample bowl (1, 0) :: gdIter bowl (-1) 0 1 (1, 0) ∧
     (gradient_descent_pytorch bowl (1, 0) (-1) 1 0).length
        = 1 + countUpdates bowl (-1) 0 1 (1, 0)) :=
  ⟨Or.inl (by norm_num),
   c6_no_validation bowl (1, 0) (-1) 1 0 (Or.inl (by norm_num))⟩

/-- C8: the loop always terminates at or before `max_iters` iterations, and
the only way it stops earlier is the tolerance check: an early stop means
the gradient norm of the last executed iteration was strictly below the
tolerance. -/
theorem c8_termination (func : Objective) (start_point : ℚ × ℚ)
    (learning_rate : ℚ) (max_iters : ℕ) (tolerance : ℚ) :
    stepsPerformed func start_point learning_rate max_iters tolerance
        ≤ max_iters ∧
    (stepsPerformed func start_point learning_rate max_iters tolerance
        < max_iters →
      Real.sqrt ((normSq (func.grad (iterPt func learning_rate
          (stepsPerformed func start_point learning_rate max_iters tolerance
            - 1) start_point)) : ℝ)) < (tolerance : ℝ)) := by
  constructor
  · exact gdIter_length_le func learning_rate tolerance max_iters start_point
  · intro hlt
    exact (gradSmall_iff_norm_lt _ _).mp
      (gdIter_early_stop func learning_rate tolerance max_iters start_point
        hlt)

/-- Witness for C8 on the flat objective: the run stops after one of five
allowed iterations, and the stopping gradient norm is below the
tolerance. -/
theorem c8_termination_witness :
    stepsPerformed flatObj (0, 0) (1/100) 5 1 < 5 ∧
    Real.sqrt ((normSq (flatObj.grad (iterPt flatObj (1/100)
        (stepsPerformed flatObj (0, 0) (1/100) 5 1 - 1) (0, 0))) : ℝ))
      < ((1 : ℚ) : ℝ) :=
  ⟨by norm_num [stepsPerformed, gdIter, gradSmall, normSq, mkSample,
      stepPoint, flatObj],
   (c8_termination flatObj (0, 0) (1/100) 5 1).2
     (by norm_num [stepsPerformed, gdIter, gradSmall, normSq, mkSample,
        stepPoint, flatObj])⟩

/-- C9: on the convex bowl objective `f(x1,x2) = x1² + x2²`, for any
learning rate in `(0, 1]`, consecutive recorded objective values never
increase. -/
theorem c9_bowl_monotone (start_point : ℚ × ℚ) (learning_rate : ℚ)
    (max_iters : ℕ) (tolerance : ℚ)
    (h1 : 0 < learning_rate) (h2 : learning_rate ≤ 1) (i : ℕ)
    (s s' : Sample)
    (hs : (gradient_descent_pytorch bowl start_point learning_rate max_iters
        tolerance).get? i = some s)
    (hs' : (gradient_descent_pytorch bowl start_point learning_rate
        max_iters tolerance).get? (i + 1) = some s') :
    s'.val ≤ s.val := by
  have hlen' : i + 1 < (gradient_descent_pytorch bowl start_point
      learning_rate max_iters tolerance).length := by
    rcases List.get?_eq_some.mp hs' with ⟨h, _⟩
    exact h
  have hlen : i < (gradient_descent_pytorch bowl start_point learning_rate
      max_iters tolerance).length := Nat.lt_of_succ_lt hlen'
  rw [run_get? bowl start_point learning_rate max_iters tolerance i hlen]
    at hs
  rw [run_get? bowl start_point learning_rate max_iters tolerance (i + 1)
    hlen'] at hs'
  injection hs with hs
  injection hs' with hs'
  subst hs hs'
  simp only [val_mkSample]
  rw [iterPt_succ_back]
  generalize iterPt bowl learning_rate i start_point = p
  have key : 0 ≤ learning_rate * ((1 - learning_rate) *
      (p.1 * p.1 + p.2 * p.2)) := by
    have hp : 0 ≤ p.1 * p.1 + p.2 * p.2 :=
      add_nonneg (mul_self_nonneg p.1) (mul_self_nonneg p.2)
    have hl : (0 : ℚ) ≤ 1 - learning_rate := by linarith
    exact mul_nonneg h1.le (mul_nonneg hl hp)
  simp only [bowl, stepPoint]
  nlinarith [key]

/-- Witness for C9: from `(1, 1)` with learning rate `1/2` the second
sample's value `0` does not exceed the first sample's value `2`. -/
theorem c9_bowl_monotone_witness :
    (0 : ℚ) < 1/2 ∧ (1/2 : ℚ) ≤ 1 ∧
    (gradient_descent_pytorch bowl (1, 1) (1/2) 1 0).get? 0
        = some (1, 1, 2) ∧
    (gradient_descent_pytorch bowl (1, 1) (1/2) 1 0).get? 1
        = some (0, 0, 0) ∧
    Sample.val (0, 0, 0) ≤ Sample.val (1, 1, 2) :=
  ⟨by norm_num, by norm_num,
   by norm_num [gradient_descent_pytorch, gdIter, gradSmall, normSq,
      mkSample, stepPoint, bowl],
   by norm_num [gradient_descent_pytorch, gdIter, gradSmall, normSq,
      mkSample, stepPoint, bowl],
   c9_bowl_monotone (1, 1) (1/2) 1 0 (by norm_num) (by norm_num) 0
     (1, 1, 2) (0, 0, 0)
     (by norm_num [gradient_descent_pytorch, gdIter, gradSmall, normSq,
        mkSample, stepPoint, bowl])
     (by norm_num [gradient_descent_pytorch, gdIter, gradSmall, normSq,
        mkSample, stepPoint, bowl])⟩

/-- C10: with `max_iters ≥ 1` the trajectory always has length at least 2
and at least one update step is performed, because iteration 1 appends its
sample before the tolerance check runs. -/
theorem c10_first_update_always_runs (func : Objective)
    (start_point : ℚ × ℚ) (learning_rate : ℚ) (max_iters : ℕ)
    (tolerance : ℚ) (h : 1 ≤ max_iters) :
    2 ≤ (gradient_descent_pytorch func start_point learning_rate max_iters
        tolerance).length ∧
    1 ≤ countUpdates func learning_rate tolerance max_iters start_point := by
  have hpos := gdIter_length_pos func learning_rate tolerance max_iters
    start_point (by omega)
  have heq := gdIter_length_eq_countUpdates func learning_rate tolerance
    max_iters start_point
  simp only [gradient_descent_pytorch, List.length_cons]
  omega

/-- Witness for C10: the flat objective with tolerance 1 already satisfies
the stopping rule at the initial point, yet one update step runs. -/
theorem c10_first_update_always_runs_witness :
    1 ≤ 1 ∧
    (2 ≤ (gradient_descent_pytorch flatObj (0, 0) 1 1 1).length ∧
     1 ≤ countUpdates flatObj 1 1 1 (0, 0)) :=
  ⟨le_refl 1, c10_first_update_always_runs flatObj (0, 0) 1 1 1 (le_refl 1)⟩
